import Mathlib

/-!
Verification of the hybrid job recommendation engine
(`recommendation_service/recommendation_engine.py` and
`recommendation_service/config.py`).

Scores are modelled as exact rationals (`ℚ`); Python floats in the source
are decimal literals, so rational arithmetic mirrors them faithfully for
the properties studied here.  Strings are Lean `String`s; Python's
`str.lower` is modelled by mapping `Char.toLower` (ASCII case folding),
and Python's substring test `a in b` by `List.IsInfix` on the underlying
character lists.  External collaborators (database reads, the
sentence-transformer encoder and the TF-IDF vectorizer from third-party
libraries) are modelled as explicit inputs: database reads as a record of
read results, and the two external similarity backends as an oracle
function giving the raw similarity value the library call would return
(for an embedding model this is a cosine similarity, hence a value in
[-1, 1]).  Everything implemented inside the repository — tokenization,
the word-overlap similarity, all sub-scores, the hybrid composition, the
threshold filter, post-processing boosts, sorting and truncation — is
translated directly from the source.
-/

namespace RecEngine

attribute [local semireducible] Rat.add Rat.mul Rat.sub Rat.inv Rat.ofScientific

/-- Python `str.lower()` (ASCII case folding). -/
def lower (s : String) : String := String.mk (s.data.map Char.toLower)

/-- Whether `needle` is a prefix of `hay` (character lists). -/
def charsPrefix : List Char → List Char → Bool
  | [], _ => true
  | _ :: _, [] => false
  | a :: as, b :: bs => a == b && charsPrefix as bs

/-- Whether `needle` occurs as a contiguous substring of `hay`
(character lists). -/
def charsSub : List Char → List Char → Bool
  | needle, [] => needle.isEmpty
  | needle, hay@(_ :: t) => charsPrefix needle hay || charsSub needle t

/-- Python's substring containment `needle in hay`. -/
def strContains (hay needle : String) : Bool := charsSub needle.data hay.data

/-- A word character for the regex `\w` (letters, digits, underscore). -/
def pyWordChar (c : Char) : Bool := c.isAlphanum || c = '_'

/-- Model of `re.findall(r'\w+', s)`: the maximal runs of word characters in `s`,
obtained by splitting at every non-word character and dropping empty chunks. -/
def wordTokens (s : String) : List String :=
  ((s.data.splitOnP (fun c => !pyWordChar c)).filter (fun l => !l.isEmpty)).map
    (fun l => String.mk l)

/-- The set of lowercased word tokens of a text, as built by
`_calculate_simple_text_similarity` via `set(re.findall(r'\w+', text.lower()))`. -/
def wordSet (s : String) : Finset String := (wordTokens (lower s)).toFinset

/-- Source `_calculate_simple_text_similarity`: Jaccard word-overlap similarity.
Returns 0 when either word set is empty, else |intersection| / |union|
(the source's trailing `if union else 0.0` guard is kept). -/
def simpleTextSimilarity (user_text job_text : String) : ℚ :=
  let user_words := wordSet user_text
  let job_words := wordSet job_text
  if user_words = ∅ ∨ job_words = ∅ then 0
  else if user_words ∪ job_words = ∅ then 0
  else ((user_words ∩ job_words).card : ℚ) / ((user_words ∪ job_words).card : ℚ)

/-- The configuration surface of `config.py` used by the scoring core.
Weights are environment-overridable in the source; they are fields here. -/
structure Config where
  CONTENT_WEIGHT : ℚ
  KNOWLEDGE_WEIGHT : ℚ
  MIN_RECOMMENDATION_SCORE : ℚ
  MAX_RECOMMENDATIONS : ℕ
  SKILLS_WEIGHT : ℚ
  EDUCATION_WEIGHT : ℚ
  EXPERIENCE_WEIGHT : ℚ
  COURSE_WEIGHT : ℚ
  LOCATION_WEIGHT : ℚ
  ENABLE_POPULARITY_BOOST : Bool
  ENABLE_DIVERSITY_BOOST : Bool

/-- The defaults of `config.py` (no environment overrides):
content 0.4 / knowledge 0.6, threshold 0.3, max 50 candidates,
sub-weights 0.30/0.25/0.20/0.15/0.10, both boosts enabled. -/
def defaultConfig : Config :=
  { CONTENT_WEIGHT := 2/5, KNOWLEDGE_WEIGHT := 3/5,
    MIN_RECOMMENDATION_SCORE := 3/10, MAX_RECOMMENDATIONS := 50,
    SKILLS_WEIGHT := 3/10, EDUCATION_WEIGHT := 1/4, EXPERIENCE_WEIGHT := 1/5,
    COURSE_WEIGHT := 3/20, LOCATION_WEIGHT := 1/10,
    ENABLE_POPULARITY_BOOST := true, ENABLE_DIVERSITY_BOOST := true }

/-- A work-experience entry; the source reads `jobTitle`, `company`,
`description` with `''` defaults. -/
structure WorkExperience where
  jobTitle : String
  company : String
  description : String
deriving DecidableEq, Repr

/-- An education entry; the source reads `degree`, `fieldOfStudy`, `school`. -/
structure EducationEntry where
  degree : String
  fieldOfStudy : String
  school : String
deriving DecidableEq, Repr

/-- The `UserProfile` dataclass.  `None` optionals are modelled as `""` / `[]`,
matching Python truthiness at every use site in the engine. -/
structure UserProfile where
  user_id : Int
  first_name : String
  last_name : String
  student_type : String
  courses : List (String × String)
  age : Option Int
  profile_completed : Bool
  has_completed_resume : Bool := false
  skills : List String := []
  work_experience : List WorkExperience := []
  education : List EducationEntry := []
  professional_summary : String := ""
  languages : List String := []
  hobbies : String := ""
deriving DecidableEq, Repr

/-- The `JobProfile` dataclass. -/
structure JobProfile where
  job_id : Int
  title : String
  category : String
  description : String
  summary : Option String
  location : String
  work_type : String
  work_arrangement : String
  experience_level : String
  min_salary : Option ℚ
  max_salary : Option ℚ
  company_name : String
  application_count : Int
deriving DecidableEq, Repr

/-- The `RecommendationScore` dataclass. -/
structure RecommendationScore where
  job_id : Int
  content_score : ℚ
  knowledge_score : ℚ
  hybrid_score : ℚ
  confidence : ℚ
  reasons : List String
  job_title : String
  job_category : String
  company_name : String
deriving DecidableEq, Repr

/-- The similarity strategy fixed at initialization: sentence-transformer
embeddings, TF-IDF vectors, or the word-overlap fallback.  The two
external-library paths carry an oracle `rawSim` for the value the library
computation returns (for embeddings, a cosine similarity in [-1,1]); the
`bert` path also carries its similarity cache. -/
inductive Backend where
  | bert (cache : List (String × ℚ)) (rawSim : String → String → ℚ)
  | tfidf (rawSim : String → String → ℚ)
  | simple

/-- Similarity dispatch of `_calculate_knowledge_score`.  For `bert`,
`_calculate_semantic_similarity_bert` first checks the cache (keyed in the
source by `md5(f"{user_text}||{job_text}")`; modelled by the concatenation
itself, treating the hash as injective) and otherwise returns the raw
cosine similarity unchanged — the source applies no clamping here (cache
insertion below capacity does not affect the returned value and is
omitted). -/
def backendSim : Backend → String → String → ℚ
  | .bert cache rawSim, user_text, job_text =>
    (match cache.lookup (user_text ++ "||" ++ job_text) with
     | some v => v
     | none => rawSim user_text job_text)
  | .tfidf rawSim, user_text, job_text => rawSim user_text job_text
  | .simple, user_text, job_text => simpleTextSimilarity user_text job_text

/-- Source `_create_user_text`: professional summary, joined skills, work
experience lines, education lines, course lines — joined with spaces and
lowercased. -/
def createUserText (user : UserProfile) : String :=
  let text_parts : List String :=
    (if user.professional_summary ≠ "" then [user.professional_summary] else []) ++
    (if ¬user.skills.isEmpty then [String.intercalate " " user.skills] else []) ++
    (user.work_experience.map (fun exp =>
      exp.jobTitle ++ " " ++ exp.company ++ " " ++ exp.description)) ++
    (user.education.map (fun edu =>
      edu.degree ++ " " ++ edu.fieldOfStudy ++ " " ++ edu.school)) ++
    (user.courses.map (fun cs => cs.1 ++ " " ++ cs.2))
  lower (String.intercalate " " text_parts)

/-- Source `_create_job_text`: title, category, description, summary, work type,
experience level — joined with spaces and lowercased. -/
def createJobText (job : JobProfile) : String :=
  lower (String.intercalate " "
    [job.title, job.category, job.description, job.summary.getD "",
     job.work_type, job.experience_level])

/-- Source `_calculate_knowledge_score`.  Hard gate on a missing completed résumé;
empty consolidated text yields `(0, [])`; otherwise the backend similarity,
clamped from above by `min 1`, with tiered reasons. -/
def knowledgeScore (backend : Backend) (user : UserProfile) (job : JobProfile) :
    ℚ × List String :=
  if ¬user.has_completed_resume then
    (0, ["Complete your resume for better job matching"])
  else
    let user_text := createUserText user
    let job_text := createJobText job
    if user_text = "" ∨ job_text = "" then (0, [])
    else
      let similarity := backendSim backend user_text job_text
      let reasons : List String :=
        if similarity > 7/10 then
          ["Strong semantic match between your profile and job requirements"]
        else if similarity > 1/2 then
          ["Good compatibility with job description"]
        else if similarity > 3/10 then
          ["Some relevant experience matches job needs"]
        else []
      (min 1 similarity, reasons)

/-- Source `_calculate_skills_match`: the fraction of the user's skills occurring
(lowercased) as a substring of the lowercased `"{title} {description}"`. -/
def skillsMatch (user_skills : List String) (job : JobProfile) : ℚ :=
  if user_skills.isEmpty then 0
  else
    let job_text := lower (job.title ++ " " ++ job.description)
    let matching_skills := user_skills.countP (fun skill => strContains job_text (lower skill))
    (matching_skills : ℚ) / (user_skills.length : ℚ)

/-- Source `_get_matching_skills`: the skills occurring in the lowercased job text. -/
def getMatchingSkills (user_skills : List String) (job : JobProfile) : List String :=
  let job_text := lower (job.title ++ " " ++ job.description)
  user_skills.filter (fun skill => strContains job_text (lower skill))

/-- The `experience_education_map` lookup with default 0.5. -/
def expLevelEduMod (level : String) : ℚ :=
  if level = "entry-level" then 8/10
  else if level = "mid-level" then 6/10
  else if level = "senior-level" then 4/10
  else if level = "executive" then 2/10
  else 1/2

/-- Source `_calculate_education_match`: base 0.8 for alumni else 0.6, times the
experience-level modifier. -/
def educationMatch (user : UserProfile) (job : JobProfile) : ℚ :=
  (if user.student_type = "alumni" then 8/10 else 6/10) * expLevelEduMod job.experience_level

/-- Source `_calculate_experience_match`: 0.3 without a completed résumé, else a
table on the job's experience level against the work-experience count (the
source's dead `else 0.6` branch for entry-level is kept verbatim). -/
def experienceMatch (user : UserProfile) (job : JobProfile) : ℚ :=
  if ¬user.has_completed_resume then 3/10
  else
    let experience_count := user.work_experience.length
    if job.experience_level = "entry-level" then
      (if experience_count ≥ 0 then 9/10 else 6/10)
    else if job.experience_level = "mid-level" then
      (if experience_count ≥ 1 then 8/10 else 4/10)
    else if job.experience_level = "senior-level" then
      (if experience_count ≥ 2 then 7/10 else 3/10)
    else
      (if experience_count ≥ 3 then 6/10 else 2/10)

/-- The loop body of `_calculate_course_match`: when the course maps to a
category set containing the job's category, take the maximum of the
accumulator and 1.0 (graduated) / 0.8 (otherwise). -/
def courseStep (mapping : List (String × List String)) (job_category : String)
    (max_score : ℚ) (cs : String × String) : ℚ :=
  match mapping.lookup cs.1 with
  | some cats =>
    if job_category ∈ cats then
      max max_score (if cs.2 = "graduated" then 1 else 8/10)
    else max_score
  | none => max_score

/-- Source `_calculate_course_match`: maximum over the user's courses of the
course-step scores; 0 with no courses or no match. -/
def courseMatch (mapping : List (String × List String)) (user_courses : List (String × String))
    (job_category : String) : ℚ :=
  if user_courses.isEmpty then 0
  else user_courses.foldl (courseStep mapping job_category) 0

/-- The accumulated `score` of `_calculate_content_score` before the final
`min(1.0, score)` clamp: the five weighted sub-scores, the skills dimension
contributing only when the user's skill list is truthy (non-empty), and the
location dimension contributing the fixed neutral 0.5. -/
def contentScoreRaw (cfg : Config) (mapping : List (String × List String))
    (user : UserProfile) (job : JobProfile) : ℚ :=
  (if ¬user.skills.isEmpty then cfg.SKILLS_WEIGHT * skillsMatch user.skills job else 0) +
  cfg.EDUCATION_WEIGHT * educationMatch user job +
  cfg.EXPERIENCE_WEIGHT * experienceMatch user job +
  cfg.COURSE_WEIGHT * courseMatch mapping user.courses job.category +
  cfg.LOCATION_WEIGHT * (1/2)

/-- The reasons accumulated by `_calculate_content_score`, in source order:
skills (sub-score > 0.5 and at least one matching skill), education
(> 0.5), experience (> 0.5), course (> 0.7). -/
def contentReasons (mapping : List (String × List String))
    (user : UserProfile) (job : JobProfile) : List String :=
  (if ¬user.skills.isEmpty ∧ skillsMatch user.skills job > 1/2 ∧
      ¬(getMatchingSkills user.skills job).isEmpty then
    ["Skills match: " ++ String.intercalate ", " ((getMatchingSkills user.skills job).take 3)]
  else []) ++
  (if educationMatch user job > 1/2 then
    ["Education level matches " ++ job.experience_level ++ " requirements"]
  else []) ++
  (if experienceMatch user job > 1/2 then
    ["Experience level aligns with " ++ job.experience_level ++ " role"]
  else []) ++
  (if courseMatch mapping user.courses job.category > 7/10 then
    ["Your course background fits " ++ job.category ++ " field"]
  else [])

/-- Source `_calculate_content_score`: the weighted sum clamped from above by
`min 1`, with the accumulated reasons. -/
def contentScore (cfg : Config) (mapping : List (String × List String))
    (user : UserProfile) (job : JobProfile) : ℚ × List String :=
  (min 1 (contentScoreRaw cfg mapping user job), contentReasons mapping user job)

/-- Source `_calculate_confidence`: 0.5 base, +0.2 for a completed profile, +0.3
for a completed résumé, +0.1 for consistent scores, clamped by `min 1`. -/
def confidenceScore (user : UserProfile) (content_score knowledge_score : ℚ) : ℚ :=
  min 1 ((1/2) + (if user.profile_completed then 1/5 else 0) +
    (if user.has_completed_resume then 3/10 else 0) +
    (if |content_score - knowledge_score| < 1/5 then 1/10 else 0))

/-- The per-job body of `_calculate_hybrid_recommendations`: both component
scores, their weighted blend, the confidence, and the (optionally empty)
combined reasons, packed into a `RecommendationScore`. -/
def scoreJob (cfg : Config) (backend : Backend) (mapping : List (String × List String))
    (user : UserProfile) (job : JobProfile) (include_reasons : Bool) : RecommendationScore :=
  let content := contentScore cfg mapping user job
  let knowledge := knowledgeScore backend user job
  let hybrid_score := cfg.CONTENT_WEIGHT * content.1 + cfg.KNOWLEDGE_WEIGHT * knowledge.1
  { job_id := job.job_id,
    content_score := content.1,
    knowledge_score := knowledge.1,
    hybrid_score := hybrid_score,
    confidence := confidenceScore user content.1 knowledge.1,
    reasons := if include_reasons then content.2 ++ knowledge.2 else [],
    job_title := job.title,
    job_category := job.category,
    company_name := job.company_name }

/-- Source `_calculate_hybrid_recommendations`: score every job profile and keep
exactly those whose (pre-boost) hybrid score reaches the threshold. -/
def calculateHybridRecommendations (cfg : Config) (backend : Backend)
    (mapping : List (String × List String)) (user : UserProfile)
    (job_profiles : List JobProfile) (include_reasons : Bool) : List RecommendationScore :=
  job_profiles.filterMap (fun job =>
    let r := scoreJob cfg backend mapping user job include_reasons
    if r.hybrid_score ≥ cfg.MIN_RECOMMENDATION_SCORE then some r else none)

/-- Outcome of one read from the data-access collaborator: the call may
raise, return no record, or return a record. -/
inductive ReadResult (α : Type) where
  | failure
  | absent
  | found (record : α)
deriving DecidableEq, Repr

/-- A skill entry of the raw résumé record: a plain string, a record with a
`name` field, a record with a `skill` field, or an unrecognized shape
(skipped by extraction).  A record holding both `name` and `skill` follows
the `name` branch in the source, so the shapes are modelled as disjoint. -/
inductive SkillEntry where
  | plain (s : String)
  | withName (s : String)
  | withSkill (s : String)
  | malformed
deriving DecidableEq, Repr

/-- A language entry of the raw résumé record. -/
inductive LangEntry where
  | plain (s : String)
  | withLanguage (s : String)
  | malformed
deriving DecidableEq, Repr

/-- The raw user profile record returned by `get_user_profile`. -/
structure ProfileRecord where
  first_name : String := ""
  last_name : String := ""
  student_type : String := ""
  courses_list : List (String × String) := []
  age : Option Int := none
  profile_completed : Bool := false
deriving DecidableEq, Repr

/-- The raw (completed) résumé record returned by `get_user_resume`. -/
structure ResumeRecord where
  skills : List SkillEntry := []
  work_experience : List WorkExperience := []
  education : List EducationEntry := []
  professional_summary : String := ""
  languages : List LangEntry := []
  hobbies : String := ""
deriving DecidableEq, Repr

/-- The raw job record returned by `get_active_jobs`. -/
structure JobRecord where
  id : Int
  title : String
  category : String
  description : Option String
  summary : Option String := none
  location : String := ""
  work_type : String := ""
  work_arrangement : String := ""
  experience_level : String := ""
  min_salary : Option ℚ := none
  max_salary : Option ℚ := none
  company_name : Option String := none
  application_count : Option Int := none
deriving DecidableEq, Repr

/-- One request's worth of data-access reads.  Profile and résumé reads can
fail or come back empty; the active-jobs read is modelled as succeeding
(its failure propagates out of `get_recommendations` as a generic internal
error, which no claim concerns). -/
structure DbReads where
  profileRead : ReadResult ProfileRecord
  resumeRead : ReadResult ResumeRecord
  activeJobs : List JobRecord
deriving Repr

/-- Source `_extract_skills_from_resume`: strings and records with a `name` or
`skill` field contribute their value; unrecognized shapes are skipped. -/
def extractSkills (entries : List SkillEntry) : List String :=
  entries.filterMap (fun e =>
    match e with
    | .plain s => some s
    | .withName s => some s
    | .withSkill s => some s
    | .malformed => none)

/-- Source `_extract_languages_from_resume`. -/
def extractLanguages (entries : List LangEntry) : List String :=
  entries.filterMap (fun e =>
    match e with
    | .plain s => some s
    | .withLanguage s => some s
    | .malformed => none)

/-- Source `_build_user_profile`: `None` when the profile read fails, when no
profile record exists, or when the résumé read fails (the source wraps both
reads in one `try` whose `except` returns `None`); otherwise the profile,
with résumé-derived fields populated only when a completed résumé record
came back. -/
def buildUserProfile (db : DbReads) (user_id : Int) : Option UserProfile :=
  match db.profileRead with
  | .failure => none
  | .absent => none
  | .found profile_data =>
    match db.resumeRead with
    | .failure => none
    | .absent =>
      some { user_id := user_id,
             first_name := profile_data.first_name,
             last_name := profile_data.last_name,
             student_type := profile_data.student_type,
             courses := profile_data.courses_list,
             age := profile_data.age,
             profile_completed := profile_data.profile_completed }
    | .found resume_data =>
      some { user_id := user_id,
             first_name := profile_data.first_name,
             last_name := profile_data.last_name,
             student_type := profile_data.student_type,
             courses := profile_data.courses_list,
             age := profile_data.age,
             profile_completed := profile_data.profile_completed,
             has_completed_resume := true,
             skills := extractSkills resume_data.skills,
             work_experience := resume_data.work_experience,
             education := resume_data.education,
             professional_summary := resume_data.professional_summary,
             languages := extractLanguages resume_data.languages,
             hobbies := resume_data.hobbies }

/-- Source `_build_job_profile`: direct field mapping with the source's defaults
(`description or ''`, company `'Unknown'`, application count 0). -/
def buildJobProfile (job_data : JobRecord) : JobProfile :=
  { job_id := job_data.id,
    title := job_data.title,
    category := job_data.category,
    description := job_data.description.getD "",
    summary := job_data.summary,
    location := job_data.location,
    work_type := job_data.work_type,
    work_arrangement := job_data.work_arrangement,
    experience_level := job_data.experience_level,
    min_salary := job_data.min_salary,
    max_salary := job_data.max_salary,
    company_name := job_data.company_name.getD "Unknown",
    application_count := job_data.application_count.getD 0 }

/-- Engine-lifetime state: the readiness flag (the source's initialization
flag, queried through `is_ready`), the chosen similarity backend, the
course→categories mapping and the popular-jobs id list. -/
structure Engine where
  ready : Bool
  backend : Backend
  job_categories_mapping : List (String × List String)
  popular_jobs : List Int

/-- The popularity-boost body of `_apply_post_processing` for one
recommendation: jobs on the popular list get `0.1 * (1 - index/len)` added
(clamped by `min 1`) and, when the boost exceeds 0.05, the "Popular job
opportunity" reason appended; other jobs are untouched. -/
def popularityBoostRec (popular_jobs : List Int) (rec : RecommendationScore) :
    RecommendationScore :=
  if rec.job_id ∈ popular_jobs then
    let boost : ℚ :=
      (1/10) * (1 - (popular_jobs.indexOf rec.job_id : ℚ) / (popular_jobs.length : ℚ))
    { rec with
        hybrid_score := min 1 (rec.hybrid_score + boost),
        reasons := rec.reasons ++ (if boost > 1/20 then ["Popular job opportunity"] else []) }
  else rec

/-- The popularity boost that `_apply_post_processing` adds for a job id
(0 for a job absent from the popular list). -/
def popularityBoostValue (popular_jobs : List Int) (job_id : Int) : ℚ :=
  if job_id ∈ popular_jobs then
    (1/10) * (1 - (popular_jobs.indexOf job_id : ℚ) / (popular_jobs.length : ℚ))
  else 0

/-- Source `_apply_diversity_boost`: category counts over the batch, then +0.05
(clamped by `min 1`) for every recommendation whose category is unique. -/
def applyDiversityBoost (recommendations : List RecommendationScore) :
    List RecommendationScore :=
  let category_count := fun (cat : String) =>
    (recommendations.filter (fun rec => rec.job_category = cat)).length
  recommendations.map (fun rec =>
    if category_count rec.job_category = 1 then
      { rec with hybrid_score := min 1 (rec.hybrid_score + 1/20) }
    else rec)

/-- Source `_apply_post_processing`: the popularity boost (when enabled and a
popular-jobs list is loaded) followed by the diversity boost (when
enabled). -/
def applyPostProcessing (cfg : Config) (popular_jobs : List Int)
    (recommendations : List RecommendationScore) : List RecommendationScore :=
  let recs1 :=
    if cfg.ENABLE_POPULARITY_BOOST ∧ ¬popular_jobs.isEmpty then
      recommendations.map (popularityBoostRec popular_jobs)
    else recommendations
  if cfg.ENABLE_DIVERSITY_BOOST then applyDiversityBoost recs1 else recs1

/-- Error surface of `get_recommendations`: the NotReady precondition
(engine used before setup completes) and the "No profile found" condition. -/
inductive RecError where
  | notReady
  | noProfileFound (user_id : Int)
deriving DecidableEq, Repr

/-- Decidable equality for `Except`, for evaluating pipeline results on
concrete inputs. -/
instance instDecEqExcept {ε α : Type} [DecidableEq ε] [DecidableEq α] :
    DecidableEq (Except ε α)
  | .error e1, .error e2 =>
    if h : e1 = e2 then .isTrue (congrArg Except.error h)
    else .isFalse (fun hc => h (Except.error.inj hc))
  | .error _, .ok _ => .isFalse (fun hc => Except.noConfusion hc)
  | .ok _, .error _ => .isFalse (fun hc => Except.noConfusion hc)
  | .ok a1, .ok a2 =>
    if h : a1 = a2 then .isTrue (congrArg Except.ok h)
    else .isFalse (fun hc => h (Except.ok.inj hc))

/-- Insert a recommendation into a descending-sorted list, before the
first element whose hybrid score does not exceed it — so an element
earlier in the original order stays ahead of later equal-scored ones. -/
def insertHybridDesc (r : RecommendationScore) :
    List RecommendationScore → List RecommendationScore
  | [] => [r]
  | x :: xs =>
    if x.hybrid_score ≤ r.hybrid_score then r :: x :: xs
    else x :: insertHybridDesc r xs

/-- The stable descending sort by hybrid score
(`recommendations.sort(key=..., reverse=True)`), as a stable insertion
sort. -/
def sortByHybridDesc : List RecommendationScore → List RecommendationScore
  | [] => []
  | x :: xs => insertHybridDesc x (sortByHybridDesc xs)

/-- Source `get_recommendations`: readiness check, profile build (failing with the
"no profile" condition), active-jobs fetch capped at
`MAX_RECOMMENDATIONS`, per-job hybrid scoring with threshold filter,
post-processing boosts, stable descending sort, truncation to `limit`.
The fire-and-forget analytics write does not affect the result and is
omitted. -/
def getRecommendations (cfg : Config) (engine : Engine) (db : DbReads)
    (user_id : Int) (limit : ℕ) (include_reasons : Bool) :
    Except RecError (List RecommendationScore) :=
  if ¬engine.ready then .error .notReady
  else
    match buildUserProfile db user_id with
    | none => .error (.noProfileFound user_id)
    | some user_profile =>
      let jobs := db.activeJobs.take cfg.MAX_RECOMMENDATIONS
      if jobs.isEmpty then .ok []
      else
        let job_profiles := jobs.map buildJobProfile
        let recommendations := calculateHybridRecommendations cfg engine.backend
          engine.job_categories_mapping user_profile job_profiles include_reasons
        let boosted := applyPostProcessing cfg engine.popular_jobs recommendations
        .ok ((sortByHybridDesc boosted).take limit)

/-- A concrete profile record: an alumni with a completed profile. -/
def profileRecX : ProfileRecord := { student_type := "alumni", profile_completed := true }

/-- A concrete completed résumé record with a single plain skill. -/
def resumeRecX : ResumeRecord := { skills := [SkillEntry.plain "python"] }

/-- A concrete active-job record. -/
def jobRecX : JobRecord :=
  { id := 1, title := "python", category := "python", description := some "python",
    work_type := "python", experience_level := "entry-level" }

/-- Data-access reads where both profile and completed résumé exist. -/
def dbX : DbReads :=
  { profileRead := .found profileRecX, resumeRead := .found resumeRecX,
    activeJobs := [jobRecX] }

/-- Data-access reads where the profile record exists but the résumé read
raises. -/
def dbResumeFail : DbReads :=
  { profileRead := .found profileRecX, resumeRead := .failure,
    activeJobs := [jobRecX] }

/-- A ready engine on the word-overlap backend whose popular-jobs list
holds exactly job 1. -/
def engX : Engine :=
  { ready := true, backend := .simple, job_categories_mapping := [],
    popular_jobs := [1] }

/-- The user profile built from `dbX` (alumni, completed profile and
résumé, one skill). -/
def userX : UserProfile :=
  { user_id := 7, first_name := "", last_name := "", student_type := "alumni",
    courses := [], age := none, profile_completed := true,
    has_completed_resume := true, skills := ["python"] }

/-- An alumni user with a completed profile but no completed résumé. -/
def userNoResume : UserProfile :=
  { user_id := 7, first_name := "", last_name := "", student_type := "alumni",
    courses := [], age := none, profile_completed := true }

/-- The job profile built from `jobRecX`. -/
def jobX : JobProfile := buildJobProfile jobRecX

/-- The single recommendation that `getRecommendations` returns on
`engX`/`dbX` (hybrid 0.476 pre-boost, 0.576 after the popularity boost,
0.626 after the diversity boost). -/
def recX : RecommendationScore :=
  { job_id := 1, content_score := 69/100, knowledge_score := 1/3,
    hybrid_score := 313/500, confidence := 1,
    reasons := ["Popular job opportunity"], job_title := "python",
    job_category := "python", company_name := "Unknown" }

theorem simpleTextSimilarity_comm (a b : String) :
    simpleTextSimilarity a b = simpleTextSimilarity b a := by
  unfold simpleTextSimilarity
  simp only [Finset.inter_comm (wordSet a), Finset.union_comm (wordSet a), or_comm]

theorem simpleTextSimilarity_self (x : String) (h : wordSet x ≠ ∅) :
    simpleTextSimilarity x x = 1 := by
  unfold simpleTextSimilarity
  simp only [Finset.inter_self, Finset.union_self, or_self, if_neg h]
  have hc : (0 : ℚ) < (wordSet x).card := by
    have : (wordSet x).Nonempty := Finset.nonempty_iff_ne_empty.mpr h
    exact_mod_cast Finset.card_pos.mpr this
  field_simp

theorem simpleTextSimilarity_nonneg (a b : String) : 0 ≤ simpleTextSimilarity a b := by
  unfold simpleTextSimilarity
  dsimp only
  split
  · exact le_refl 0
  · split
    · exact le_refl 0
    · positivity

theorem simpleTextSimilarity_le_one (a b : String) : simpleTextSimilarity a b ≤ 1 := by
  unfold simpleTextSimilarity
  dsimp only
  split
  · exact zero_le_one
  · split
    · exact zero_le_one
    · rename_i h1 h2
      rw [div_le_one]
      · exact_mod_cast Finset.card_le_card (Finset.inter_subset_union)
      · have : (wordSet a ∪ wordSet b).Nonempty := Finset.nonempty_iff_ne_empty.mpr h2
        exact_mod_cast Finset.card_pos.mpr this

theorem skillsMatch_nonneg (user_skills : List String) (job : JobProfile) :
    0 ≤ skillsMatch user_skills job := by
  unfold skillsMatch
  dsimp only
  split
  · exact le_refl 0
  · positivity

theorem skillsMatch_le_one (user_skills : List String) (job : JobProfile) :
    skillsMatch user_skills job ≤ 1 := by
  unfold skillsMatch
  dsimp only
  split
  · exact zero_le_one
  · rename_i h
    have hne : user_skills ≠ [] := by simpa [List.isEmpty_iff] using h
    have hlen : (0 : ℚ) < user_skills.length := by
      exact_mod_cast List.length_pos.mpr hne
    rw [div_le_one hlen]
    exact_mod_cast List.countP_le_length _

theorem educationMatch_nonneg (user : UserProfile) (job : JobProfile) :
    0 ≤ educationMatch user job := by
  unfold educationMatch expLevelEduMod
  split_ifs <;> norm_num

theorem educationMatch_le_one (user : UserProfile) (job : JobProfile) :
    educationMatch user job ≤ 1 := by
  unfold educationMatch expLevelEduMod
  split_ifs <;> norm_num

theorem experienceMatch_nonneg (user : UserProfile) (job : JobProfile) :
    0 ≤ experienceMatch user job := by
  unfold experienceMatch
  dsimp only
  split_ifs <;> norm_num

theorem experienceMatch_le_one (user : UserProfile) (job : JobProfile) :
    experienceMatch user job ≤ 1 := by
  unfold experienceMatch
  dsimp only
  split_ifs <;> norm_num

theorem courseStep_ge (mapping : List (String × List String)) (job_category : String)
    (max_score : ℚ) (cs : String × String) :
    max_score ≤ courseStep mapping job_category max_score cs := by
  unfold courseStep
  rcases h : mapping.lookup cs.1 with _ | cats
  · exact le_refl _
  · dsimp only
    split
    · exact le_max_left _ _
    · exact le_refl _

theorem courseStep_le_one (mapping : List (String × List String)) (job_category : String)
    (max_score : ℚ) (cs : String × String) (h : max_score ≤ 1) :
    courseStep mapping job_category max_score cs ≤ 1 := by
  unfold courseStep
  rcases hl : mapping.lookup cs.1 with _ | cats
  · exact h
  · dsimp only
    split
    · exact max_le h (by split <;> norm_num)
    · exact h

theorem courseFold_ge (mapping : List (String × List String)) (job_category : String) :
    ∀ (l : List (String × String)) (init : ℚ),
      init ≤ l.foldl (courseStep mapping job_category) init := by
  intro l
  induction l with
  | nil => intro init; exact le_refl _
  | cons x xs ih =>
    intro init
    exact le_trans (courseStep_ge mapping job_category init x) (ih _)

theorem courseFold_le_one (mapping : List (String × List String)) (job_category : String) :
    ∀ (l : List (String × String)) (init : ℚ), init ≤ 1 →
      l.foldl (courseStep mapping job_category) init ≤ 1 := by
  intro l
  induction l with
  | nil => intro init h; exact h
  | cons x xs ih =>
    intro init h
    exact ih _ (courseStep_le_one mapping job_category init x h)

theorem courseMatch_nonneg (mapping : List (String × List String))
    (user_courses : List (String × String)) (job_category : String) :
    0 ≤ courseMatch mapping user_courses job_category := by
  unfold courseMatch
  split
  · exact le_refl 0
  · exact courseFold_ge mapping job_category user_courses 0

theorem courseMatch_le_one (mapping : List (String × List String))
    (user_courses : List (String × String)) (job_category : String) :
    courseMatch mapping user_courses job_category ≤ 1 := by
  unfold courseMatch
  split
  · exact zero_le_one
  · exact courseFold_le_one mapping job_category user_courses 0 zero_le_one

theorem contentScore_fst (cfg : Config) (mapping : List (String × List String))
    (user : UserProfile) (job : JobProfile) :
    (contentScore cfg mapping user job).1 = min 1 (contentScoreRaw cfg mapping user job) := rfl

theorem contentScore_le_one (cfg : Config) (mapping : List (String × List String))
    (user : UserProfile) (job : JobProfile) :
    (contentScore cfg mapping user job).1 ≤ 1 :=
  min_le_left _ _

theorem contentScoreRaw_ge_location (cfg : Config) (mapping : List (String × List String))
    (user : UserProfile) (job : JobProfile)
    (hs : 0 ≤ cfg.SKILLS_WEIGHT) (he : 0 ≤ cfg.EDUCATION_WEIGHT)
    (hx : 0 ≤ cfg.EXPERIENCE_WEIGHT) (hc : 0 ≤ cfg.COURSE_WEIGHT) :
    cfg.LOCATION_WEIGHT * (1/2) ≤ contentScoreRaw cfg mapping user job := by
  unfold contentScoreRaw
  have t1 : (0:ℚ) ≤
      (if ¬user.skills.isEmpty then cfg.SKILLS_WEIGHT * skillsMatch user.skills job else 0) := by
    split
    · exact mul_nonneg hs (skillsMatch_nonneg user.skills job)
    · exact le_refl 0
  have t2 := mul_nonneg he (educationMatch_nonneg user job)
  have t3 := mul_nonneg hx (experienceMatch_nonneg user job)
  have t4 := mul_nonneg hc (courseMatch_nonneg mapping user.courses job.category)
  linarith

theorem contentScore_nonneg (cfg : Config) (mapping : List (String × List String))
    (user : UserProfile) (job : JobProfile)
    (hs : 0 ≤ cfg.SKILLS_WEIGHT) (he : 0 ≤ cfg.EDUCATION_WEIGHT)
    (hx : 0 ≤ cfg.EXPERIENCE_WEIGHT) (hc : 0 ≤ cfg.COURSE_WEIGHT)
    (hl : 0 ≤ cfg.LOCATION_WEIGHT) :
    0 ≤ (contentScore cfg mapping user job).1 := by
  rw [contentScore_fst]
  refine le_min zero_le_one ?_
  have := contentScoreRaw_ge_location cfg mapping user job hs he hx hc
  nlinarith

theorem knowledgeScore_le_one (backend : Backend) (user : UserProfile) (job : JobProfile) :
    (knowledgeScore backend user job).1 ≤ 1 := by
  unfold knowledgeScore
  dsimp only
  split
  · norm_num
  · split
    · norm_num
    · exact min_le_left _ _

theorem knowledgeScore_nonneg (backend : Backend) (user : UserProfile) (job : JobProfile)
    (hB : ∀ a b, 0 ≤ backendSim backend a b) :
    0 ≤ (knowledgeScore backend user job).1 := by
  unfold knowledgeScore
  dsimp only
  split
  · norm_num
  · split
    · norm_num
    · exact le_min zero_le_one (hB _ _)

theorem scoreJob_hybrid_eq (cfg : Config) (backend : Backend)
    (mapping : List (String × List String)) (user : UserProfile) (job : JobProfile)
    (include_reasons : Bool) :
    (scoreJob cfg backend mapping user job include_reasons).hybrid_score =
      cfg.CONTENT_WEIGHT * (contentScore cfg mapping user job).1 +
      cfg.KNOWLEDGE_WEIGHT * (knowledgeScore backend user job).1 := rfl

theorem scoreJob_reasons_eq (cfg : Config) (backend : Backend)
    (mapping : List (String × List String)) (user : UserProfile) (job : JobProfile)
    (include_reasons : Bool) :
    (scoreJob cfg backend mapping user job include_reasons).reasons =
      if include_reasons then
        (contentScore cfg mapping user job).2 ++ (knowledgeScore backend user job).2
      else [] := rfl

theorem scoreJob_hybrid_le_one (backend : Backend) (mapping : List (String × List String))
    (user : UserProfile) (job : JobProfile) (include_reasons : Bool) :
    (scoreJob defaultConfig backend mapping user job include_reasons).hybrid_score ≤ 1 := by
  rw [scoreJob_hybrid_eq]
  have hc := contentScore_le_one defaultConfig mapping user job
  have hk := knowledgeScore_le_one backend user job
  show defaultConfig.CONTENT_WEIGHT * (contentScore defaultConfig mapping user job).1 +
    defaultConfig.KNOWLEDGE_WEIGHT * (knowledgeScore backend user job).1 ≤ 1
  have hcw : defaultConfig.CONTENT_WEIGHT = 2/5 := rfl
  have hkw : defaultConfig.KNOWLEDGE_WEIGHT = 3/5 := rfl
  rw [hcw, hkw]
  linarith

/-- C1 counterexample: the embedding-based similarity path does NOT clamp
its cosine similarity to [0,1] before it becomes the knowledge score —
`_calculate_semantic_similarity_bert` returns the raw cosine value and
`_calculate_knowledge_score` clamps only from above with `min(1.0, score)`.
A cosine similarity of -1/2 (a legitimate value of cosine similarity,
which ranges over [-1,1]) therefore yields knowledge score -1/2 ∉ [0,1]
for a concrete user/job pair with a completed résumé and non-empty texts. -/
theorem c1_counterexample :
    (knowledgeScore (Backend.bert [] (fun _ _ => -(1/2))) userX jobX).1 = -(1/2) ∧
    (knowledgeScore (Backend.bert [] (fun _ _ => -(1/2))) userX jobX).1 < 0 ∧
    (-1 : ℚ) ≤ -(1/2) ∧ (-(1/2) : ℚ) ≤ 1 := by
  refine ⟨by decide, ?_, by norm_num, by norm_num⟩
  have h : (knowledgeScore (Backend.bert [] (fun _ _ => -(1/2))) userX jobX).1 = -(1/2) := by
    decide
  rw [h]; norm_num

/-- C1 (amended): under the default weight configuration, the content
score always lies in [0,1] and the knowledge and pre-boost hybrid scores
are clamped only from above (≤ 1 always); all three lie in [0,1] whenever
the similarity backend returns non-negative values — which holds
unconditionally for the word-overlap backend, but not for the embedding
path, which performs no lower clamp on its cosine similarity. -/
theorem c1_component_bounds (backend : Backend) (mapping : List (String × List String))
    (user : UserProfile) (job : JobProfile) (include_reasons : Bool)
    (hB : ∀ a b, 0 ≤ backendSim backend a b) :
    (0 ≤ (contentScore defaultConfig mapping user job).1 ∧
      (contentScore defaultConfig mapping user job).1 ≤ 1) ∧
    (0 ≤ (knowledgeScore backend user job).1 ∧
      (knowledgeScore backend user job).1 ≤ 1) ∧
    (0 ≤ (scoreJob defaultConfig backend mapping user job include_reasons).hybrid_score ∧
      (scoreJob defaultConfig backend mapping user job include_reasons).hybrid_score ≤ 1) := by
  have hc0 : 0 ≤ (contentScore defaultConfig mapping user job).1 :=
    contentScore_nonneg defaultConfig mapping user job (by norm_num [defaultConfig])
      (by norm_num [defaultConfig]) (by norm_num [defaultConfig])
      (by norm_num [defaultConfig]) (by norm_num [defaultConfig])
  have hc1 := contentScore_le_one defaultConfig mapping user job
  have hk0 := knowledgeScore_nonneg backend user job hB
  have hk1 := knowledgeScore_le_one backend user job
  refine ⟨⟨hc0, hc1⟩, ⟨hk0, hk1⟩, ?_, ?_⟩
  · rw [scoreJob_hybrid_eq]
    show 0 ≤ defaultConfig.CONTENT_WEIGHT * (contentScore defaultConfig mapping user job).1 +
      defaultConfig.KNOWLEDGE_WEIGHT * (knowledgeScore backend user job).1
    have h1 : defaultConfig.CONTENT_WEIGHT = 2/5 := rfl
    have h2 : defaultConfig.KNOWLEDGE_WEIGHT = 3/5 := rfl
    rw [h1, h2]; linarith
  · rw [scoreJob_hybrid_eq]
    show defaultConfig.CONTENT_WEIGHT * (contentScore defaultConfig mapping user job).1 +
      defaultConfig.KNOWLEDGE_WEIGHT * (knowledgeScore backend user job).1 ≤ 1
    have h1 : defaultConfig.CONTENT_WEIGHT = 2/5 := rfl
    have h2 : defaultConfig.KNOWLEDGE_WEIGHT = 3/5 := rfl
    rw [h1, h2]; linarith

/-- C1 witness: the amended bounds instantiated on the word-overlap
backend at a concrete user/job pair. -/
theorem c1_component_bounds_witness :
    (0 ≤ (contentScore defaultConfig [] userX jobX).1 ∧
      (contentScore defaultConfig [] userX jobX).1 ≤ 1) ∧
    (0 ≤ (knowledgeScore Backend.simple userX jobX).1 ∧
      (knowledgeScore Backend.simple userX jobX).1 ≤ 1) ∧
    (0 ≤ (scoreJob defaultConfig Backend.simple [] userX jobX true).hybrid_score ∧
      (scoreJob defaultConfig Backend.simple [] userX jobX true).hybrid_score ≤ 1) :=
  c1_component_bounds Backend.simple [] userX jobX true
    (fun a b => simpleTextSimilarity_nonneg a b)

/-- C3: the résumé hard gate — a user without a completed résumé gets
knowledge score 0.0 with exactly the single fixed reason, regardless of
the job and of the similarity backend. -/
theorem c3_resume_hard_gate (backend : Backend) (user : UserProfile) (job : JobProfile)
    (h : user.has_completed_resume = false) :
    knowledgeScore backend user job =
      (0, ["Complete your resume for better job matching"]) := by
  unfold knowledgeScore
  simp [h]

/-- C3 witness: the hard gate at a concrete résumé-less user and job. -/
theorem c3_resume_hard_gate_witness :
    userNoResume.has_completed_resume = false ∧
    knowledgeScore Backend.simple userNoResume jobX =
      (0, ["Complete your resume for better job matching"]) :=
  ⟨rfl, c3_resume_hard_gate Backend.simple userNoResume jobX rfl⟩

/-- C4: the hybrid score of a scored candidate, before any post-processing
boost, is exactly `CONTENT_WEIGHT * content_score + KNOWLEDGE_WEIGHT *
knowledge_score` with the configured weights, for every configuration,
backend, user and job. -/
theorem c4_hybrid_formula (cfg : Config) (backend : Backend)
    (mapping : List (String × List String)) (user : UserProfile) (job : JobProfile)
    (include_reasons : Bool) :
    (scoreJob cfg backend mapping user job include_reasons).hybrid_score =
      cfg.CONTENT_WEIGHT * (contentScore cfg mapping user job).1 +
      cfg.KNOWLEDGE_WEIGHT * (knowledgeScore backend user job).1 := rfl

/-- C5: the skills sub-score equals the fraction of the user's skills that
occur (lowercased, i.e. case-insensitively) as a substring of
`"{job.title} {job.description}"`; it is 1.0 when every skill occurs, and
0.0 for an empty skill list. -/
theorem c5_skills_subscore (user_skills : List String) (job : JobProfile) :
    (user_skills ≠ [] →
      skillsMatch user_skills job =
        (user_skills.countP
          (fun skill => strContains (lower (job.title ++ " " ++ job.description)) (lower skill)) : ℚ) /
        (user_skills.length : ℚ)) ∧
    ((∀ skill ∈ user_skills,
        strContains (lower (job.title ++ " " ++ job.description)) (lower skill) = true) →
      user_skills ≠ [] → skillsMatch user_skills job = 1) ∧
    skillsMatch [] job = 0 := by
  have hfrac : user_skills ≠ [] →
      skillsMatch user_skills job =
        (user_skills.countP
          (fun skill => strContains (lower (job.title ++ " " ++ job.description)) (lower skill)) : ℚ) /
        (user_skills.length : ℚ) := by
    intro hne
    unfold skillsMatch
    rw [if_neg (by simpa [List.isEmpty_iff] using hne)]
  refine ⟨hfrac, ?_, rfl⟩
  intro hall hne
  rw [hfrac hne]
  have hcount : user_skills.countP
      (fun skill => strContains (lower (job.title ++ " " ++ job.description)) (lower skill)) =
      user_skills.length := List.countP_eq_length.mpr hall
  rw [hcount]
  have hlen : (user_skills.length : ℚ) ≠ 0 := by
    exact_mod_cast Nat.pos_iff_ne_zero.mp (List.length_pos.mpr hne)
  field_simp

/-- C5 witness: a single skill occurring verbatim in the job title yields
sub-score 1; the empty skill list yields 0. -/
theorem c5_skills_subscore_witness :
    skillsMatch ["python"] jobX = 1 ∧ skillsMatch [] jobX = 0 :=
  ⟨(c5_skills_subscore ["python"] jobX).2.1 (by decide) (by decide),
   (c5_skills_subscore [] jobX).2.2⟩

/-- C6: the popularity boost — for a recommendation whose job id sits at
some rank in the popular-jobs list, the boosted score is the old score
plus `0.1 * (1 - rank/len)` clamped to at most 1; the boost value is
monotonically non-increasing in the rank; a job absent from the list gets
boost exactly 0 and its recommendation is untouched. -/
theorem c6_popularity_boost (popular_jobs : List Int) (rec : RecommendationScore)
    (a b job_id : Int) :
    (rec.job_id ∈ popular_jobs →
      (popularityBoostRec popular_jobs rec).hybrid_score =
        min 1 (rec.hybrid_score +
          (1/10) * (1 - (popular_jobs.indexOf rec.job_id : ℚ) / (popular_jobs.length : ℚ)))) ∧
    (a ∈ popular_jobs → b ∈ popular_jobs →
      popular_jobs.indexOf a ≤ popular_jobs.indexOf b →
      popularityBoostValue popular_jobs b ≤ popularityBoostValue popular_jobs a) ∧
    (job_id ∉ popular_jobs → popularityBoostValue popular_jobs job_id = 0) ∧
    (rec.job_id ∉ popular_jobs → popularityBoostRec popular_jobs rec = rec) := by
  refine ⟨?_, ?_, ?_, ?_⟩
  · intro h
    unfold popularityBoostRec
    rw [if_pos h]
  · intro ha hb hidx
    unfold popularityBoostValue
    rw [if_pos ha, if_pos hb]
    have hn : (0 : ℚ) < (popular_jobs.length : ℚ) := by
      exact_mod_cast List.length_pos.mpr (List.ne_nil_of_mem ha)
    have hcast : (popular_jobs.indexOf a : ℚ) ≤ (popular_jobs.indexOf b : ℚ) := by
      exact_mod_cast hidx
    have hdiv : (popular_jobs.indexOf a : ℚ) / (popular_jobs.length : ℚ) ≤
        (popular_jobs.indexOf b : ℚ) / (popular_jobs.length : ℚ) :=
      (div_le_div_iff_of_pos_right hn).mpr hcast
    linarith
  · intro h
    unfold popularityBoostValue
    rw [if_neg h]
  · intro h
    unfold popularityBoostRec
    rw [if_neg h]

/-- C6 witness: the boost formula, its monotonicity and the absent case on
the concrete popular list `[1, 9]`. -/
theorem c6_popularity_boost_witness :
    (popularityBoostRec [1, 9] recX).hybrid_score =
      min 1 (recX.hybrid_score +
        (1/10) * (1 - (([1, 9] : List Int).indexOf recX.job_id : ℚ) / (([1, 9] : List Int).length : ℚ))) ∧
    popularityBoostValue [1, 9] 9 ≤ popularityBoostValue [1, 9] 1 ∧
    popularityBoostValue [1, 9] 7 = 0 := by
  have h := c6_popularity_boost [1, 9] recX 1 9 7
  exact ⟨h.1 (by decide), h.2.1 (by decide) (by decide) (by decide), h.2.2.1 (by decide)⟩

/-- C8 counterexample: `similarity(x, x) = 1.0` fails for the non-empty
text `"!"`, whose word-token set is empty (the regex `\w+` finds no word),
so the guard returns 0.0 instead of 1.0. -/
theorem c8_counterexample :
    ("!" : String) ≠ "" ∧ simpleTextSimilarity "!" "!" = 0 := by
  exact ⟨by decide, by decide⟩

/-- C8 (amended): the word-overlap similarity is symmetric for all texts,
and `similarity(x, x) = 1.0` for every text x whose word-token set is
non-empty (rather than every non-empty text). -/
theorem c8_word_overlap (a b x : String) :
    simpleTextSimilarity a b = simpleTextSimilarity b a ∧
    (wordSet x ≠ ∅ → simpleTextSimilarity x x = 1) :=
  ⟨simpleTextSimilarity_comm a b, simpleTextSimilarity_self x⟩

/-- C8 witness: symmetry and full self-overlap on concrete texts. -/
theorem c8_word_overlap_witness :
    simpleTextSimilarity "abc def" "def xyz" = simpleTextSimilarity "def xyz" "abc def" ∧
    simpleTextSimilarity "abc def" "abc def" = 1 := by
  have h := c8_word_overlap "abc def" "def xyz" "abc def"
  exact ⟨h.1, h.2 (by decide)⟩

/-- C10: the strictly positive content-score floor — with non-negative
sub-weights the location dimension contributes `LOCATION_WEIGHT * 0.5`
unconditionally and every other dimension contributes a non-negative
amount, so the content score is at least `LOCATION_WEIGHT * 0.5` (as long
as that floor does not exceed the `min(1.0, ·)` clamp, which any weight
configuration summing to ≈1 satisfies), and is strictly positive whenever
`LOCATION_WEIGHT` is. -/
theorem c10_content_floor (cfg : Config) (mapping : List (String × List String))
    (user : UserProfile) (job : JobProfile)
    (hs : 0 ≤ cfg.SKILLS_WEIGHT) (he : 0 ≤ cfg.EDUCATION_WEIGHT)
    (hx : 0 ≤ cfg.EXPERIENCE_WEIGHT) (hc : 0 ≤ cfg.COURSE_WEIGHT) :
    (cfg.LOCATION_WEIGHT * (1/2) ≤ 1 →
      cfg.LOCATION_WEIGHT * (1/2) ≤ (contentScore cfg mapping user job).1) ∧
    (0 < cfg.LOCATION_WEIGHT → 0 < (contentScore cfg mapping user job).1) := by
  have hraw := contentScoreRaw_ge_location cfg mapping user job hs he hx hc
  constructor
  · intro h1
    rw [contentScore_fst]
    exact le_min h1 hraw
  · intro h2
    rw [contentScore_fst]
    exact lt_min one_pos (lt_of_lt_of_le (mul_pos h2 (by norm_num)) hraw)

/-- C10 witness: the floor at the default configuration (0.10 × 0.5 =
0.05) for a user with no skills, no courses and no résumé. -/
theorem c10_content_floor_witness :
    defaultConfig.LOCATION_WEIGHT * (1/2) ≤ (contentScore defaultConfig [] userNoResume jobX).1 ∧
    0 < (contentScore defaultConfig [] userNoResume jobX).1 := by
  have h := c10_content_floor defaultConfig [] userNoResume jobX
    (by decide) (by decide) (by decide) (by decide)
  exact ⟨h.1 (by decide), h.2 (by decide)⟩

theorem mem_insertHybridDesc (r' r : RecommendationScore) (l : List RecommendationScore) :
    r' ∈ insertHybridDesc r l ↔ r' = r ∨ r' ∈ l := by
  induction l with
  | nil => simp [insertHybridDesc]
  | cons x xs ih =>
    unfold insertHybridDesc
    split
    · simp
    · simp only [List.mem_cons, ih]
      tauto

theorem mem_sortByHybridDesc (r' : RecommendationScore) (l : List RecommendationScore) :
    r' ∈ sortByHybridDesc l ↔ r' ∈ l := by
  induction l with
  | nil => simp [sortByHybridDesc]
  | cons x xs ih =>
    unfold sortByHybridDesc
    rw [mem_insertHybridDesc]
    simp [ih]

theorem indexOf_lt_length_of_mem {a : Int} {l : List Int} (h : a ∈ l) :
    l.indexOf a < l.length := by
  show l.findIdx (· == a) < l.length
  exact List.findIdx_lt_length_of_exists ⟨a, h, by simp⟩

theorem popularityBoostRec_spec (popular_jobs : List Int) (r : RecommendationScore)
    (h1 : r.hybrid_score ≤ 1) :
    (popularityBoostRec popular_jobs r).job_id = r.job_id ∧
    (popularityBoostRec popular_jobs r).job_category = r.job_category ∧
    r.hybrid_score ≤ (popularityBoostRec popular_jobs r).hybrid_score ∧
    (popularityBoostRec popular_jobs r).hybrid_score ≤ 1 ∧
    ((popularityBoostRec popular_jobs r).reasons = r.reasons ∨
      (popularityBoostRec popular_jobs r).reasons = r.reasons ++ ["Popular job opportunity"]) := by
  unfold popularityBoostRec
  split
  · rename_i hmem
    have hidx : ((popular_jobs.indexOf r.job_id : ℚ)) < (popular_jobs.length : ℚ) := by
      exact_mod_cast indexOf_lt_length_of_mem hmem
    have hn : (0 : ℚ) < (popular_jobs.length : ℚ) := by
      exact_mod_cast List.length_pos.mpr (List.ne_nil_of_mem hmem)
    have hquot : (popular_jobs.indexOf r.job_id : ℚ) / (popular_jobs.length : ℚ) ≤ 1 :=
      (div_le_one hn).mpr (le_of_lt hidx)
    have hboost : 0 ≤ (1/10 : ℚ) *
        (1 - (popular_jobs.indexOf r.job_id : ℚ) / (popular_jobs.length : ℚ)) := by
      nlinarith
    refine ⟨rfl, rfl, le_min h1 (by linarith), min_le_left _ _, ?_⟩
    dsimp only
    split
    · right; rfl
    · left; simp
  · exact ⟨rfl, rfl, le_refl _, h1, Or.inl rfl⟩

theorem applyDiversityBoost_mem (recs : List RecommendationScore) (r' : RecommendationScore)
    (hmem : r' ∈ applyDiversityBoost recs)
    (hall : ∀ r0 ∈ recs, r0.hybrid_score ≤ 1) :
    ∃ r0 ∈ recs, r'.job_id = r0.job_id ∧ r0.hybrid_score ≤ r'.hybrid_score ∧
      r'.hybrid_score ≤ 1 ∧ r'.reasons = r0.reasons := by
  unfold applyDiversityBoost at hmem
  rw [List.mem_map] at hmem
  obtain ⟨r0, h0, heq⟩ := hmem
  refine ⟨r0, h0, ?_⟩
  have hr0 := hall r0 h0
  dsimp only at heq
  split at heq
  · rw [← heq]
    exact ⟨rfl, le_min hr0 (by linarith), min_le_left _ _, rfl⟩
  · rw [← heq]
    exact ⟨rfl, le_refl _, hr0, rfl⟩

theorem applyPostProcessing_mem (cfg : Config) (popular_jobs : List Int)
    (recs : List RecommendationScore) (r' : RecommendationScore)
    (hmem : r' ∈ applyPostProcessing cfg popular_jobs recs)
    (hall : ∀ r0 ∈ recs, r0.hybrid_score ≤ 1) :
    ∃ r0 ∈ recs, r'.job_id = r0.job_id ∧ r0.hybrid_score ≤ r'.hybrid_score ∧
      (r'.reasons = r0.reasons ∨ r'.reasons = r0.reasons ++ ["Popular job opportunity"]) := by
  unfold applyPostProcessing at hmem
  dsimp only at hmem
  have stage1 : ∀ r1 ∈ (if cfg.ENABLE_POPULARITY_BOOST ∧ ¬popular_jobs.isEmpty then
      recs.map (popularityBoostRec popular_jobs) else recs),
      ∃ r0 ∈ recs, r1.job_id = r0.job_id ∧ r0.hybrid_score ≤ r1.hybrid_score ∧
        r1.hybrid_score ≤ 1 ∧
        (r1.reasons = r0.reasons ∨ r1.reasons = r0.reasons ++ ["Popular job opportunity"]) := by
    intro r1 h1
    split at h1
    · rw [List.mem_map] at h1
      obtain ⟨r0, h0, heq⟩ := h1
      have hspec := popularityBoostRec_spec popular_jobs r0 (hall r0 h0)
      rw [heq] at hspec
      exact ⟨r0, h0, hspec.1, hspec.2.2.1, hspec.2.2.2.1, hspec.2.2.2.2⟩
    · exact ⟨r1, h1, rfl, le_refl _, hall r1 h1, Or.inl rfl⟩
  split at hmem
  · have hall1 : ∀ r1 ∈ (if cfg.ENABLE_POPULARITY_BOOST ∧ ¬popular_jobs.isEmpty then
        recs.map (popularityBoostRec popular_jobs) else recs), r1.hybrid_score ≤ 1 := by
      intro r1 h1
      obtain ⟨r0, _, _, _, hle1, _⟩ := stage1 r1 h1
      exact hle1
    obtain ⟨r1, h1, hid, hle, _, hreas⟩ := applyDiversityBoost_mem _ r' hmem hall1
    obtain ⟨r0, h0, hid0, hle0, _, hreas0⟩ := stage1 r1 h1
    refine ⟨r0, h0, hid.trans hid0, le_trans hle0 hle, ?_⟩
    rw [hreas]
    exact hreas0
  · obtain ⟨r0, h0, hid, hle, _, hreas⟩ := stage1 r' hmem
    exact ⟨r0, h0, hid, hle, hreas⟩

theorem mem_calculateHybrid (cfg : Config) (backend : Backend)
    (mapping : List (String × List String)) (user : UserProfile)
    (job_profiles : List JobProfile) (include_reasons : Bool) (r0 : RecommendationScore)
    (h : r0 ∈ calculateHybridRecommendations cfg backend mapping user job_profiles include_reasons) :
    ∃ job ∈ job_profiles, r0 = scoreJob cfg backend mapping user job include_reasons ∧
      cfg.MIN_RECOMMENDATION_SCORE ≤ r0.hybrid_score := by
  unfold calculateHybridRecommendations at h
  rw [List.mem_filterMap] at h
  obtain ⟨job, hj, heq⟩ := h
  dsimp only at heq
  split at heq
  · rename_i hge
    cases heq
    exact ⟨job, hj, rfl, hge⟩
  · cases heq

theorem buildUserProfile_eq_none (db : DbReads) (user_id : Int) :
    buildUserProfile db user_id = none ↔
      (db.profileRead = .failure ∨ db.profileRead = .absent ∨ db.resumeRead = .failure) := by
  obtain ⟨pr, rr, aj⟩ := db
  rcases pr <;> rcases rr <;> simp [buildUserProfile]

theorem hybrid_le_one_of_mem_calculateHybrid (backend : Backend)
    (mapping : List (String × List String)) (user : UserProfile)
    (job_profiles : List JobProfile) (include_reasons : Bool) (r0 : RecommendationScore)
    (h : r0 ∈ calculateHybridRecommendations defaultConfig backend mapping user
      job_profiles include_reasons) :
    r0.hybrid_score ≤ 1 := by
  obtain ⟨job, _, heq, _⟩ :=
    mem_calculateHybrid defaultConfig backend mapping user job_profiles include_reasons r0 h
  rw [heq]
  exact scoreJob_hybrid_le_one backend mapping user job include_reasons

/-- C2: threshold filtering precedes boosting — every recommendation that
`get_recommendations` returns (under the default configuration) stems from
a scored job whose pre-boost hybrid score already reached
`MIN_RECOMMENDATION_SCORE`; the post-processing boosts can only raise that
score (`pre ≤ returned`), never admit a below-threshold pair. -/
theorem c2_threshold_precedes_boost (engine : Engine) (db : DbReads) (user_id : Int)
    (limit : ℕ) (include_reasons : Bool) (recs : List RecommendationScore)
    (r : RecommendationScore)
    (hok : getRecommendations defaultConfig engine db user_id limit include_reasons =
      .ok recs)
    (hr : r ∈ recs) :
    ∃ user, buildUserProfile db user_id = some user ∧
      ∃ job ∈ (db.activeJobs.take defaultConfig.MAX_RECOMMENDATIONS).map buildJobProfile,
        r.job_id = (scoreJob defaultConfig engine.backend engine.job_categories_mapping
          user job include_reasons).job_id ∧
        defaultConfig.MIN_RECOMMENDATION_SCORE ≤
          (scoreJob defaultConfig engine.backend engine.job_categories_mapping
            user job include_reasons).hybrid_score ∧
        (scoreJob defaultConfig engine.backend engine.job_categories_mapping
          user job include_reasons).hybrid_score ≤ r.hybrid_score := by
  unfold getRecommendations at hok
  split at hok
  · cases hok
  rcases hbu : buildUserProfile db user_id with _ | user
  · rw [hbu] at hok; cases hok
  rw [hbu] at hok
  dsimp only at hok
  split at hok
  · cases hok
    cases hr
  rename_i hne
  cases hok
  have hr1 := (List.take_subset limit _) hr
  rw [mem_sortByHybridDesc] at hr1
  have hall := fun r0 h0 => hybrid_le_one_of_mem_calculateHybrid engine.backend
    engine.job_categories_mapping user
    ((db.activeJobs.take defaultConfig.MAX_RECOMMENDATIONS).map buildJobProfile)
    include_reasons r0 h0
  obtain ⟨r0, h0, hid, hle, _⟩ :=
    applyPostProcessing_mem defaultConfig engine.popular_jobs _ r hr1 hall
  obtain ⟨job, hj, heq, hmin⟩ := mem_calculateHybrid defaultConfig engine.backend
    engine.job_categories_mapping user _ include_reasons r0 h0
  refine ⟨user, rfl, job, hj, ?_, ?_, ?_⟩
  · rw [hid, heq]
  · rw [← heq]; exact hmin
  · rw [← heq]; exact hle

/-- C2 witness: the theorem applied to the concrete engine/data where the
single returned recommendation (job 1, boosted to 0.626) stems from
pre-boost hybrid score 0.476 ≥ 0.3. -/
theorem c2_threshold_precedes_boost_witness :
    ∃ user, buildUserProfile dbX 7 = some user ∧
      ∃ job ∈ (dbX.activeJobs.take defaultConfig.MAX_RECOMMENDATIONS).map buildJobProfile,
        recX.job_id = (scoreJob defaultConfig engX.backend engX.job_categories_mapping
          user job false).job_id ∧
        defaultConfig.MIN_RECOMMENDATION_SCORE ≤
          (scoreJob defaultConfig engX.backend engX.job_categories_mapping
            user job false).hybrid_score ∧
        (scoreJob defaultConfig engX.backend engX.job_categories_mapping
          user job false).hybrid_score ≤ recX.hybrid_score :=
  c2_threshold_precedes_boost engX dbX 7 10 false [recX] recX (by decide) (by decide)

/-- C7 counterexample: with `include_reasons = false` the pipeline still
returns a recommendation whose reasons list is non-empty —
`_apply_post_processing` appends "Popular job opportunity" for a popular
job with boost > 0.05 regardless of whether explanations were requested. -/
theorem c7_counterexample :
    getRecommendations defaultConfig engX dbX 7 10 false = .ok [recX] ∧
    recX.reasons ≠ [] := by
  exact ⟨by decide, by decide⟩

/-- C7 (amended): with `include_reasons = false` the scoring stage
contributes no reasons, but the popularity boost may still append its
reason — so every returned recommendation's reasons list is either empty
or exactly `["Popular job opportunity"]` (rather than always empty). -/
theorem c7_reasons_without_flag (engine : Engine) (db : DbReads) (user_id : Int)
    (limit : ℕ) (recs : List RecommendationScore) (r : RecommendationScore)
    (hok : getRecommendations defaultConfig engine db user_id limit false = .ok recs)
    (hr : r ∈ recs) :
    r.reasons = [] ∨ r.reasons = ["Popular job opportunity"] := by
  unfold getRecommendations at hok
  split at hok
  · cases hok
  rcases hbu : buildUserProfile db user_id with _ | user
  · rw [hbu] at hok; cases hok
  rw [hbu] at hok
  dsimp only at hok
  split at hok
  · cases hok
    cases hr
  cases hok
  have hr1 := (List.take_subset limit _) hr
  rw [mem_sortByHybridDesc] at hr1
  have hall := fun r0 h0 => hybrid_le_one_of_mem_calculateHybrid engine.backend
    engine.job_categories_mapping user
    ((db.activeJobs.take defaultConfig.MAX_RECOMMENDATIONS).map buildJobProfile)
    false r0 h0
  obtain ⟨r0, h0, _, _, hreas⟩ :=
    applyPostProcessing_mem defaultConfig engine.popular_jobs _ r hr1 hall
  obtain ⟨job, _, heq, _⟩ := mem_calculateHybrid defaultConfig engine.backend
    engine.job_categories_mapping user _ false r0 h0
  have hempty : r0.reasons = [] := by
    rw [heq, scoreJob_reasons_eq]
    rfl
  rcases hreas with h | h
  · left; rw [h, hempty]
  · right; rw [h, hempty]; rfl

/-- C7 witness: the amended statement at the concrete pipeline run whose
single result carries exactly the popularity reason. -/
theorem c7_reasons_without_flag_witness :
    recX.reasons = [] ∨ recX.reasons = ["Popular job opportunity"] :=
  c7_reasons_without_flag engX dbX 7 10 [recX] recX (by decide) (by decide)

/-- C9 counterexample: a profile record IS resolvable (`profileRead`
returns one) yet `get_recommendations` still surfaces the "No profile
found" condition, because `_build_user_profile` catches the failing résumé
read and returns `None` — the DataAccessFailure is reported as the
user-validation failure instead of being kept distinct. -/
theorem c9_counterexample :
    dbResumeFail.profileRead = .found profileRecX ∧
    getRecommendations defaultConfig engX dbResumeFail 7 10 true =
      .error (.noProfileFound 7) := by
  exact ⟨rfl, by decide⟩

/-- C9 (amended): on a ready engine, `get_recommendations` surfaces the
"No profile found" condition iff profile building returned nothing — which
happens when the profile read fails, when no profile record exists, or
when the résumé read fails.  UnknownUser is therefore NOT distinguished
from a data-access failure during profile/résumé reading. -/
theorem c9_no_profile_condition (engine : Engine) (db : DbReads) (user_id : Int)
    (limit : ℕ) (include_reasons : Bool) (hready : engine.ready = true) :
    getRecommendations defaultConfig engine db user_id limit include_reasons =
      .error (.noProfileFound user_id) ↔
    (db.profileRead = .failure ∨ db.profileRead = .absent ∨ db.resumeRead = .failure) := by
  rw [← buildUserProfile_eq_none db user_id]
  unfold getRecommendations
  rw [if_neg (by simp [hready])]
  rcases hbu : buildUserProfile db user_id with _ | user
  · simp
  · dsimp only
    constructor
    · intro h
      split at h <;> cases h
    · intro h
      cases h

/-- C9 witness: the amended equivalence at a concrete ready engine and a
database whose résumé read fails. -/
theorem c9_no_profile_condition_witness :
    (getRecommendations defaultConfig engX dbResumeFail 7 10 true =
      .error (.noProfileFound 7) ↔
    (dbResumeFail.profileRead = .failure ∨ dbResumeFail.profileRead = .absent ∨
      dbResumeFail.resumeRead = .failure)) :=
  c9_no_profile_condition engX dbResumeFail 7 10 true rfl

end RecEngine
